import Mathlib

/- Verification of the elevenlabs-openai-proxy relay (src/main.py):
   the payload sanitizer `sanitize` and the rate-limit-aware stream
   forwarder `stream_openai`, shallowly embedded in Lean. -/

namespace Proxy

/-- JSON-compatible values carried by a request payload.  The sanitizer never
inspects the structure of a value, so a small value universe suffices. -/
inductive Val where
  | null : Val
  | bool (b : Bool) : Val
  | num (n : Int) : Val
  | str (s : String) : Val
deriving DecidableEq, Repr

/-- A Python dict modelled as an insertion-ordered association list.  Payloads
produced by `request.json()` have pairwise distinct keys; the operations below
agree with Python dict semantics on such lists. -/
abbrev Payload := List (String × Val)

/-- Membership test and value access `payload[k]` / `k in payload`:
the value at the first binding of `k`, if any. -/
def dictLookup (k : String) : Payload → Option Val
  | [] => none
  | (k₀, v) :: rest => if k₀ = k then some v else dictLookup k rest

/-- The effect of `payload.pop(k, None)` on the bindings: the binding of `k`
is removed.  On lists with distinct keys (every Python dict) this removes
exactly the one binding of `k`. -/
def dictPop (k : String) : Payload → Payload
  | [] => []
  | (k₀, v) :: rest => if k₀ = k then dictPop k rest else (k₀, v) :: dictPop k rest

/-- Assignment `payload[k] = v`: overwrite the binding of `k` in place if it
exists, otherwise append a new binding at the end. -/
def dictSet (k : String) (v : Val) : Payload → Payload
  | [] => [(k, v)]
  | (k₀, v₀) :: rest => if k₀ = k then (k, v) :: rest else (k₀, v₀) :: dictSet k v rest

/-- Token field normalization of `sanitize` (src/main.py lines 40-43):
if `max_output_tokens` is present and `max_tokens` is not, move the value to
`max_tokens`; otherwise drop `max_output_tokens`. -/
def tokenNorm (p : Payload) : Payload :=
  match dictLookup "max_output_tokens" p, dictLookup "max_tokens" p with
  | some v, none => dictSet "max_tokens" v (dictPop "max_output_tokens" p)
  | _, _ => dictPop "max_output_tokens" p

/-- The sanitizer `sanitize` (src/main.py lines 27-52): drop `elevenlabs_extra_body`,
`user_id` and `reasoning_effort`, normalize the token-limit field, and force
`stream = True`.  The pops of `temperature` and `top_p` are commented out in
the source, so they are (faithfully) absent here. -/
def sanitize (payload : Payload) : Payload :=
  dictSet "stream" (Val.bool true)
    (tokenNorm (dictPop "reasoning_effort" (dictPop "user_id"
      (dictPop "elevenlabs_extra_body" payload))))

/-- A byte chunk of the backend's streamed response body, as produced by
`aiter_bytes()`. -/
abbrev Chunk := List Nat

/-- One backend response, as `stream_openai` observes it on one attempt: the
HTTP status, the decoded error body (what `(await r.aread()).decode("utf-8",
errors="ignore")` yields), the body chunks `aiter_bytes()` produces on a 200
response, and whether the transport fails after producing those chunks
(a mid-stream error while the caller is already receiving output). -/
structure Resp where
  status : Nat
  body : String
  chunks : List Chunk
  streamErr : Bool

/-- Characters of the character class in the pattern `try again in ([0-9.]+)s`. -/
def numDotChar (c : Char) : Bool := c.isDigit || c == '.'

/-- Case-insensitive matching of one literal pattern character, as under
`re.IGNORECASE`. -/
def charCI (pc c : Char) : Bool := pc.toLower == c.toLower

/-- Match a literal pattern case-insensitively at the head of the text,
returning the remaining text on success. -/
def dropCIHead : List Char → List Char → Option (List Char)
  | [], s => some s
  | _ :: _, [] => none
  | pc :: pr, c :: cs => if charCI pc c then dropCIHead pr cs else none

/-- Attempt to match `try again in ([0-9.]+)s` case-insensitively at the
start of `s`, returning the captured group.  The greedy group `[0-9.]+` can
only succeed with the maximal run of class characters, because the following
pattern character `s` is not in the class, so backtracking to a shorter run
never helps; the run must be nonempty and be followed by `s` or `S`. -/
def tryMatchAt (s : List Char) : Option (List Char) :=
  match dropCIHead ("try again in ".toList) s with
  | none => none
  | some rest =>
    let run := rest.takeWhile numDotChar
    match rest.drop run.length with
    | c :: _ => if !run.isEmpty && (c == 's' || c == 'S') then some run else none
    | [] => none

/-- The search `re.search(r"try again in ([0-9.]+)s", text,
flags=re.IGNORECASE)` (src/main.py line 80): the group captured at the
leftmost position where the pattern matches, scanning start positions left
to right. -/
def reSearch : List Char → Option (List Char)
  | [] => none
  | c :: cs =>
    match tryMatchAt (c :: cs) with
    | some g => some g
    | none => reSearch cs

/-- Numeric value of a digit run, most significant digit first. -/
def digitsVal (l : List Char) : Nat :=
  l.foldl (fun a c => 10 * a + (c.toNat - 48)) 0

/-- Python `float(s)` applied to a string over the characters `[0-9.]`: it
succeeds exactly when the string has at least one digit and at most one dot
(otherwise `float` raises ValueError), and then denotes the written decimal
number `intPart.fracPart`, kept exactly as the rational
(intPart * 10^k + fracPart) / 10^k where k is the fraction length. -/
def pyFloat (s : List Char) : Option ℚ :=
  if s.all numDotChar ∧ s.any Char.isDigit ∧
      (s.filter (fun c => c == '.')).length ≤ 1 then
    let intPart := s.takeWhile (fun c => c != '.')
    let fracPart := (s.drop intPart.length).drop 1
    some (mkRat
      (Int.ofNat (digitsVal intPart * Nat.pow 10 fracPart.length + digitsVal fracPart))
      (Nat.pow 10 fracPart.length))
  else none

/-- The 429 wait computation (src/main.py lines 80-84):
`wait_s = float(m.group(1)) if m else 2.5`, slept for `min(wait_s + 0.3,
6.0)`.  `Except.error ()` models the ValueError that `float` raises when the
captured group is not a valid numeral. -/
def computeWait (text : String) : Except Unit ℚ :=
  match reSearch text.toList with
  | none => Except.ok (min ((5 : ℚ)/2 + 3/10) 6)
  | some g =>
    match pyFloat g with
    | some q => Except.ok (min (q + 3/10) 6)
    | none => Except.error ()

/-- The detail of the 502 raised when all three attempts were rate-limited
(src/main.py lines 100-103). -/
def rateLimitedDetail : String :=
  "OpenAI rate-limited repeatedly (429). Please retry shortly."

/-- Observable events of one `stream_openai` generator run: a backend call
being opened, a backoff sleep, a chunk yielded to the caller, an
HTTPException raised, normal generator return, a mid-stream transport
failure, and an escaped ValueError. -/
inductive Ev where
  | attempt (i : Nat) : Ev
  | wait (w : ℚ) : Ev
  | yieldChunk (c : Chunk) : Ev
  | httpError (status : Nat) (detail : String) : Ev
  | finished : Ev
  | truncated : Ev
  | valueError : Ev
deriving DecidableEq

/-- Events of the 200-streaming branch (src/main.py lines 94-98): every
nonempty chunk is yielded in arrival order (`if chunk:` skips empty ones),
then the generator returns -- or the transport fails mid-stream, which the
caller sees as a truncated stream. -/
def streamEvents (resp : Resp) : List Ev :=
  ((resp.chunks.filter (fun c => !c.isEmpty)).map Ev.yieldChunk) ++
    [if resp.streamErr then Ev.truncated else Ev.finished]

/-- The retry loop of `stream_openai` (src/main.py lines 72-103): the events
produced from attempt number `i` with `r` loop iterations remaining.  When
the loop ends without returning, the synthetic rate-limit 502 is raised. -/
def runEvents (backend : Nat → Resp) : Nat → Nat → List Ev
  | _, 0 => [Ev.httpError 502 rateLimitedDetail]
  | i, r + 1 =>
    Ev.attempt i ::
      (if (backend i).status = 429 then
        match computeWait (backend i).body with
        | Except.ok w => Ev.wait w :: runEvents backend (i + 1) r
        | Except.error _ => [Ev.valueError]
      else if (backend i).status ≠ 200 then
        [Ev.httpError 502
          ("OpenAI error " ++ toString (backend i).status ++ ": " ++ (backend i).body)]
      else
        streamEvents (backend i))

/-- One full run of `stream_openai` against a backend behavior: `backend i`
is the response the backend gives to the i-th outbound call.  The loop is
`for attempt in range(3)`. -/
def stream_openai (backend : Nat → Resp) : List Ev :=
  runEvents backend 0 3

/-- The chunks relayed to the caller during a run, in order. -/
def yieldedChunks : List Ev → List Chunk
  | [] => []
  | Ev.yieldChunk c :: rest => c :: yieldedChunks rest
  | _ :: rest => yieldedChunks rest

/-- The number of outbound backend calls made during a run. -/
def attemptsMade : List Ev → Nat
  | [] => 0
  | Ev.attempt _ :: rest => attemptsMade rest + 1
  | _ :: rest => attemptsMade rest

/-- Events that may follow a relayed chunk: further chunks, normal
completion, or a mid-stream truncation -- never a new attempt, a backoff
wait, or a fresh error response. -/
def postStreamEvent : Ev → Bool
  | Ev.yieldChunk _ => true
  | Ev.finished => true
  | Ev.truncated => true
  | _ => false

/-- Scan of a run for a retry-after-output violation: after the first
relayed chunk, only `postStreamEvent`s may occur. -/
def noRetryAfterFirstByte : List Ev → Bool
  | [] => true
  | Ev.yieldChunk _ :: rest => rest.all postStreamEvent
  | _ :: rest => noRetryAfterFirstByte rest

/-- Head test for `containsSub`. -/
def headMatches : List Char → List Char → Bool
  | [], _ => true
  | _ :: _, [] => false
  | a :: as, b :: bs => a == b && headMatches as bs

/-- Substring containment, used to state the spec's reading for the wait
claim: the body "contains a phrase of the form `try again in <number>s`"
means the literal phrase occurs somewhere in the body. -/
def containsSub (pat : List Char) : List Char → Bool
  | [] => headMatches pat []
  | c :: cs => headMatches pat (c :: cs) || containsSub pat cs

/-- Fixed backend behaviors used as concrete test inputs. -/
def singleOkBackend : Nat → Resp := fun _ => ⟨200, "", [[104]], false⟩

def emptyChunkBackend : Nat → Resp := fun _ => ⟨200, "", [[], [104, 105]], false⟩

def benign429Backend : Nat → Resp := fun _ => ⟨429, "slow down", [], false⟩

def dotBodyBackend : Nat → Resp := fun _ => ⟨429, "try again in .s", [], false⟩

def forbiddenBackend : Nat → Resp := fun _ => ⟨403, "forbidden", [], false⟩

theorem dictLookup_dictSet_self (k : String) (v : Val) (p : Payload) :
    dictLookup k (dictSet k v p) = some v := by
  induction p with
  | nil => simp [dictSet, dictLookup]
  | cons kv rest ih =>
    obtain ⟨k₀, v₀⟩ := kv
    by_cases h : k₀ = k <;> simp [dictSet, dictLookup, h, ih]

theorem dictLookup_dictSet_ne (k k' : String) (v : Val) (p : Payload) (h : k' ≠ k) :
    dictLookup k' (dictSet k v p) = dictLookup k' p := by
  induction p with
  | nil => simp [dictSet, dictLookup, Ne.symm h]
  | cons kv rest ih =>
    obtain ⟨k₀, v₀⟩ := kv
    by_cases h₀ : k₀ = k
    · subst h₀
      simp [dictSet, dictLookup, Ne.symm h]
    · simp [dictSet, dictLookup, h₀, ih]

theorem dictLookup_dictPop_self (k : String) (p : Payload) :
    dictLookup k (dictPop k p) = none := by
  induction p with
  | nil => simp [dictPop, dictLookup]
  | cons kv rest ih =>
    obtain ⟨k₀, v₀⟩ := kv
    by_cases h : k₀ = k
    · simp [dictPop, h, ih]
    · simp [dictPop, dictLookup, h, ih]

theorem dictLookup_dictPop_ne (k k' : String) (p : Payload) (h : k' ≠ k) :
    dictLookup k' (dictPop k p) = dictLookup k' p := by
  induction p with
  | nil => simp [dictPop, dictLookup]
  | cons kv rest ih =>
    obtain ⟨k₀, v₀⟩ := kv
    by_cases h₀ : k₀ = k
    · subst h₀
      simp [dictPop, dictLookup, Ne.symm h, ih]
    · simp only [dictPop, if_neg h₀, dictLookup]
      rw [ih]

theorem dictPop_of_absent (k : String) (p : Payload) (h : dictLookup k p = none) :
    dictPop k p = p := by
  induction p with
  | nil => simp [dictPop]
  | cons kv rest ih =>
    obtain ⟨k₀, v₀⟩ := kv
    by_cases h₀ : k₀ = k
    · simp [dictLookup, h₀] at h
    · simp only [dictLookup, if_neg h₀] at h
      simp [dictPop, h₀, ih h]

theorem dictSet_dictSet_self (k : String) (v : Val) (p : Payload) :
    dictSet k v (dictSet k v p) = dictSet k v p := by
  induction p with
  | nil => simp [dictSet]
  | cons kv rest ih =>
    obtain ⟨k₀, v₀⟩ := kv
    by_cases h : k₀ = k <;> simp [dictSet, h, ih]

theorem tokenNorm_lookup_mot (p : Payload) :
    dictLookup "max_output_tokens" (tokenNorm p) = none := by
  unfold tokenNorm
  cases h₁ : dictLookup "max_output_tokens" p <;>
    cases h₂ : dictLookup "max_tokens" p <;>
      simp [dictLookup_dictPop_self,
        dictLookup_dictSet_ne "max_tokens" "max_output_tokens" _ _ (by decide)]

theorem tokenNorm_lookup_other (k : String) (p : Payload)
    (h₁ : k ≠ "max_tokens") (h₂ : k ≠ "max_output_tokens") :
    dictLookup k (tokenNorm p) = dictLookup k p := by
  unfold tokenNorm
  cases hm : dictLookup "max_output_tokens" p <;>
    cases hn : dictLookup "max_tokens" p <;>
      simp [dictLookup_dictPop_ne _ _ _ h₂, dictLookup_dictSet_ne _ _ _ _ h₁]

/-- C7: if `max_output_tokens` is present and `max_tokens` is absent, the
sanitized payload maps `max_tokens` to the old `max_output_tokens` value; if
`max_tokens` is already present its value is retained; and in no case does
`max_output_tokens` survive sanitization. -/
theorem sanitize_token_normalization (p : Payload) :
    (∀ v, dictLookup "max_output_tokens" p = some v →
      dictLookup "max_tokens" p = none →
      dictLookup "max_tokens" (sanitize p) = some v) ∧
    (∀ w, dictLookup "max_tokens" p = some w →
      dictLookup "max_tokens" (sanitize p) = some w) ∧
    dictLookup "max_output_tokens" (sanitize p) = none := by
  have hp3 : ∀ k : String, k ≠ "elevenlabs_extra_body" → k ≠ "user_id" →
      k ≠ "reasoning_effort" →
      dictLookup k (dictPop "reasoning_effort" (dictPop "user_id"
        (dictPop "elevenlabs_extra_body" p))) = dictLookup k p := by
    intro k he hu hr
    rw [dictLookup_dictPop_ne _ _ _ hr, dictLookup_dictPop_ne _ _ _ hu,
      dictLookup_dictPop_ne _ _ _ he]
  have hmtmot : ("max_tokens" : String) ≠ "max_output_tokens" := by decide
  refine ⟨?_, ?_, ?_⟩
  · intro v hv hn
    unfold sanitize
    rw [dictLookup_dictSet_ne "stream" "max_tokens" _ _ (by decide)]
    unfold tokenNorm
    rw [hp3 "max_output_tokens" (by decide) (by decide) (by decide),
      hp3 "max_tokens" (by decide) (by decide) (by decide), hv, hn]
    exact dictLookup_dictSet_self _ _ _
  · intro w hw
    unfold sanitize
    rw [dictLookup_dictSet_ne "stream" "max_tokens" _ _ (by decide)]
    unfold tokenNorm
    rw [hp3 "max_output_tokens" (by decide) (by decide) (by decide),
      hp3 "max_tokens" (by decide) (by decide) (by decide), hw]
    cases hm : dictLookup "max_output_tokens" p <;>
      simp [dictLookup_dictPop_ne _ _ _ hmtmot,
        hp3 "max_tokens" (by decide) (by decide) (by decide), hw]
  · unfold sanitize
    rw [dictLookup_dictSet_ne "stream" "max_output_tokens" _ _ (by decide)]
    exact tokenNorm_lookup_mot _

/-- C7 witness: concrete payloads exercising both branches of the token-limit
normalization. -/
theorem sanitize_token_normalization_witness :
    dictLookup "max_tokens" (sanitize [("max_output_tokens", Val.num 7)]) = some (Val.num 7) ∧
    dictLookup "max_tokens" (sanitize [("max_tokens", Val.num 3), ("max_output_tokens", Val.num 7)]) = some (Val.num 3) ∧
    dictLookup "max_output_tokens" (sanitize [("max_output_tokens", Val.num 7)]) = none :=
  ⟨(sanitize_token_normalization [("max_output_tokens", Val.num 7)]).1 (Val.num 7) rfl rfl,
   (sanitize_token_normalization [("max_tokens", Val.num 3), ("max_output_tokens", Val.num 7)]).2.1 (Val.num 3) rfl,
   (sanitize_token_normalization [("max_output_tokens", Val.num 7)]).2.2⟩

/-- C8: sanitize maps `stream` to `True` for every payload, including
payloads that set it to `False` or omit it. -/
theorem sanitize_forces_stream (p : Payload) :
    dictLookup "stream" (sanitize p) = some (Val.bool true) := by
  unfold sanitize
  exact dictLookup_dictSet_self _ _ _

/-- C9: the source keeps `temperature` and `top_p` (their pops are commented
out, src/main.py lines 47-48), so the stricter sanitization the claim states
does not hold: both keys survive sanitization of this payload. -/
theorem sanitize_keeps_temperature :
    dictLookup "temperature" (sanitize [("temperature", Val.num 1), ("top_p", Val.num 2)]) = some (Val.num 1) ∧
    dictLookup "top_p" (sanitize [("temperature", Val.num 1), ("top_p", Val.num 2)]) = some (Val.num 2) ∧
    dictLookup "reasoning_effort" (sanitize [("reasoning_effort", Val.num 3)]) = none := by
  refine ⟨rfl, rfl, rfl⟩

theorem tokenNorm_of_absent (p : Payload)
    (h : dictLookup "max_output_tokens" p = none) : tokenNorm p = p := by
  unfold tokenNorm
  rw [h]
  cases hmt : dictLookup "max_tokens" p <;> simp [dictPop_of_absent _ _ h]

/-- C10: sanitize is idempotent: sanitizing an already-sanitized payload
changes nothing. -/
theorem sanitize_idempotent (p : Payload) : sanitize (sanitize p) = sanitize p := by
  have hdropped : ∀ k : String, k ≠ "max_tokens" → k ≠ "stream" →
      k ≠ "max_output_tokens" →
      dictLookup k (dictPop "reasoning_effort" (dictPop "user_id"
        (dictPop "elevenlabs_extra_body" p))) = none →
      dictLookup k (sanitize p) = none := by
    intro k hmt hs hmot h
    unfold sanitize
    rw [dictLookup_dictSet_ne _ _ _ _ hs, tokenNorm_lookup_other _ _ hmt hmot]
    exact h
  have heb : dictLookup "elevenlabs_extra_body" (sanitize p) = none := by
    refine hdropped _ (by decide) (by decide) (by decide) ?_
    rw [dictLookup_dictPop_ne _ _ _ (by decide), dictLookup_dictPop_ne _ _ _ (by decide)]
    exact dictLookup_dictPop_self _ _
  have huid : dictLookup "user_id" (sanitize p) = none := by
    refine hdropped _ (by decide) (by decide) (by decide) ?_
    rw [dictLookup_dictPop_ne _ _ _ (by decide)]
    exact dictLookup_dictPop_self _ _
  have hre : dictLookup "reasoning_effort" (sanitize p) = none :=
    hdropped _ (by decide) (by decide) (by decide) (dictLookup_dictPop_self _ _)
  have hmot : dictLookup "max_output_tokens" (sanitize p) = none := by
    unfold sanitize
    rw [dictLookup_dictSet_ne _ _ _ _ (by decide)]
    exact tokenNorm_lookup_mot _
  conv_lhs => rw [sanitize]
  rw [dictPop_of_absent _ _ heb, dictPop_of_absent _ _ huid, dictPop_of_absent _ _ hre,
    tokenNorm_of_absent _ hmot]
  unfold sanitize
  exact dictSet_dictSet_self _ _ _

theorem all_postStream_yields (ys : List Chunk) (e : Ev)
    (he : postStreamEvent e = true) :
    ((ys.map Ev.yieldChunk) ++ [e]).all postStreamEvent = true := by
  induction ys with
  | nil => simp [he]
  | cons y ys ih => simp_all [postStreamEvent]

theorem noRetryAfterFirstByte_yields (ys : List Chunk) (e : Ev)
    (he : postStreamEvent e = true) :
    noRetryAfterFirstByte ((ys.map Ev.yieldChunk) ++ [e]) = true := by
  cases ys with
  | nil => cases e <;> simp_all [noRetryAfterFirstByte, postStreamEvent]
  | cons y ys => simp [noRetryAfterFirstByte, all_postStream_yields ys e he]

theorem noRetryAfterFirstByte_runEvents (backend : Nat → Resp) :
    ∀ r i, noRetryAfterFirstByte (runEvents backend i r) = true := by
  intro r
  induction r with
  | zero => intro i; rfl
  | succ r ih =>
    intro i
    by_cases h₁ : (backend i).status = 429
    · cases hw : computeWait (backend i).body with
      | ok w => simp [runEvents, h₁, hw, noRetryAfterFirstByte, ih (i + 1)]
      | error u => simp [runEvents, h₁, hw, noRetryAfterFirstByte]
    · by_cases h₂ : (backend i).status = 200
      · have he : postStreamEvent
            (if (backend i).streamErr then Ev.truncated else Ev.finished) = true := by
          cases (backend i).streamErr <;> rfl
        simp [runEvents, h₁, h₂, noRetryAfterFirstByte, streamEvents,
          noRetryAfterFirstByte_yields _ _ he]
      · simp [runEvents, h₁, h₂, noRetryAfterFirstByte]

theorem noRetry_cons (x : Ev) (t : List Ev)
    (h : noRetryAfterFirstByte (x :: t) = true) :
    t.all postStreamEvent = true ∨ noRetryAfterFirstByte t = true := by
  cases x <;> simp_all [noRetryAfterFirstByte]

theorem postStream_after_yield (l₁ l₂ : List Ev) (c : Chunk)
    (hn : noRetryAfterFirstByte (l₁ ++ Ev.yieldChunk c :: l₂) = true) :
    ∀ e ∈ l₂, postStreamEvent e = true := by
  induction l₁ with
  | nil =>
    rw [List.nil_append] at hn
    simp only [noRetryAfterFirstByte, List.all_eq_true] at hn
    intro e he
    exact hn e (by simp [he])
  | cons a l₁ ih =>
    rw [List.cons_append] at hn
    rcases noRetry_cons a _ hn with hall | hrec
    · intro e he
      exact List.all_eq_true.mp hall e (by simp [he])
    · exact ih hrec

/-- C1: once any chunk of a 200 stream has been relayed to the caller, the
forwarder never opens another backend attempt for that request: every event
after a relayed chunk is another relayed chunk, normal completion, or a
mid-stream truncation -- never an `Ev.attempt`, a backoff wait, or a fresh
error response. -/
theorem stream_openai_no_retry_after_first_byte (backend : Nat → Resp)
    (l₁ l₂ : List Ev) (c : Chunk)
    (h : stream_openai backend = l₁ ++ Ev.yieldChunk c :: l₂) :
    ∀ e ∈ l₂, postStreamEvent e = true := by
  have hn : noRetryAfterFirstByte (l₁ ++ Ev.yieldChunk c :: l₂) = true := by
    rw [← h]
    exact noRetryAfterFirstByte_runEvents backend 3 0
  exact postStream_after_yield l₁ l₂ c hn

/-- C1 witness: a concrete run that relays a chunk, instantiating the
invariant after that chunk. -/
theorem stream_openai_no_retry_after_first_byte_witness :
    stream_openai singleOkBackend = [Ev.attempt 0, Ev.yieldChunk [104], Ev.finished] ∧
    postStreamEvent Ev.finished = true :=
  ⟨rfl, stream_openai_no_retry_after_first_byte singleOkBackend
    [Ev.attempt 0] [Ev.finished] [104] rfl Ev.finished (by simp)⟩

theorem yieldedChunks_map_append (ys : List Chunk) (t : List Ev) :
    yieldedChunks ((ys.map Ev.yieldChunk) ++ t) = ys ++ yieldedChunks t := by
  induction ys with
  | nil => simp
  | cons y ys ih => simp [yieldedChunks, ih]

theorem yieldedChunks_streamEvents (resp : Resp) :
    yieldedChunks (streamEvents resp) = resp.chunks.filter (fun c => !c.isEmpty) := by
  unfold streamEvents
  rw [yieldedChunks_map_append]
  cases resp.streamErr <;> simp [yieldedChunks]

/-- C2 (amended): on a 200 response the forwarder relays exactly the
nonempty chunks, in arrival order and unmodified; empty chunks are skipped
by the `if chunk:` guard.  When no chunk is empty, this is exactly the full
chunk sequence of the backend. -/
theorem stream_openai_relays_chunks (backend : Nat → Resp)
    (h : (backend 0).status = 200) :
    yieldedChunks (stream_openai backend) =
      (backend 0).chunks.filter (fun c => !c.isEmpty) ∧
    ((∀ c ∈ (backend 0).chunks, c ≠ []) →
      yieldedChunks (stream_openai backend) = (backend 0).chunks) := by
  have ht : stream_openai backend = Ev.attempt 0 :: streamEvents (backend 0) := by
    simp [stream_openai, runEvents, h]
  have h₁ : yieldedChunks (stream_openai backend) =
      (backend 0).chunks.filter (fun c => !c.isEmpty) := by
    rw [ht]
    show yieldedChunks (Ev.attempt 0 :: streamEvents (backend 0)) = _
    rw [show yieldedChunks (Ev.attempt 0 :: streamEvents (backend 0)) =
      yieldedChunks (streamEvents (backend 0)) from rfl]
    exact yieldedChunks_streamEvents _
  refine ⟨h₁, fun hne => ?_⟩
  rw [h₁]
  rw [List.filter_eq_self]
  intro c hc
  have := hne c hc
  simp_all [List.isEmpty_iff]

/-- C2 witness: a 200 stream of two nonempty chunks is relayed in full. -/
theorem stream_openai_relays_chunks_witness :
    yieldedChunks (stream_openai (fun _ => ⟨200, "", [[1], [2, 3]], false⟩)) =
      [[1], [2, 3]] :=
  (stream_openai_relays_chunks (fun _ => ⟨200, "", [[1], [2, 3]], false⟩) rfl).2
    (by decide)

/-- C2 counterexample: with a 200 response whose chunk sequence contains an
empty chunk, the forwarder does not relay every chunk: the `if chunk:` guard
drops the empty one, so the output chunk sequence differs from the
backend's. -/
theorem stream_openai_drops_empty_chunk :
    yieldedChunks (stream_openai emptyChunkBackend) = [[104, 105]] ∧
    yieldedChunks (stream_openai emptyChunkBackend) ≠ (emptyChunkBackend 0).chunks := by
  exact ⟨rfl, by decide⟩

/-- C3: three consecutive 429s are claimed to give exactly 3 attempts, no
relayed bytes and the synthetic rate-limit 502.  That is what happens for a
body with no wait hint; but when the 429 body makes the captured group a
bare dot, `float` raises ValueError and the run dies after a single attempt
with no 502 at all, so the claim fails on the code. -/
theorem stream_openai_429_three_attempts :
    stream_openai benign429Backend =
      [Ev.attempt 0, Ev.wait (14/5), Ev.attempt 1, Ev.wait (14/5), Ev.attempt 2,
       Ev.wait (14/5), Ev.httpError 502 rateLimitedDetail] ∧
    yieldedChunks (stream_openai benign429Backend) = [] ∧
    attemptsMade (stream_openai benign429Backend) = 3 ∧
    stream_openai dotBodyBackend = [Ev.attempt 0, Ev.valueError] ∧
    attemptsMade (stream_openai dotBodyBackend) = 1 := by
  have hn : reSearch ("slow down".toList) = none := rfl
  have hw : computeWait "slow down" = Except.ok ((14 : ℚ)/5) := by
    simp only [computeWait, hn]
    congr 1
    rw [min_eq_left (by norm_num)]
    norm_num
  have step : ∀ i r, runEvents benign429Backend i (r + 1) =
      Ev.attempt i :: Ev.wait ((14 : ℚ)/5) :: runEvents benign429Backend (i + 1) r := by
    intro i r
    simp [runEvents, benign429Backend, hw]
  have e1 : runEvents benign429Backend 2 1 =
      [Ev.attempt 2, Ev.wait ((14 : ℚ)/5), Ev.httpError 502 rateLimitedDetail] := by
    show runEvents benign429Backend 2 (0 + 1) = _
    rw [step 2 0]
    rfl
  have e2 : runEvents benign429Backend 1 2 =
      [Ev.attempt 1, Ev.wait ((14 : ℚ)/5), Ev.attempt 2, Ev.wait ((14 : ℚ)/5),
       Ev.httpError 502 rateLimitedDetail] := by
    show runEvents benign429Backend 1 (1 + 1) = _
    rw [step 1 1, e1]
  have e3 : stream_openai benign429Backend =
      [Ev.attempt 0, Ev.wait ((14 : ℚ)/5), Ev.attempt 1, Ev.wait ((14 : ℚ)/5), Ev.attempt 2,
       Ev.wait ((14 : ℚ)/5), Ev.httpError 502 rateLimitedDetail] := by
    show runEvents benign429Backend 0 (2 + 1) = _
    rw [step 0 2, e2]
  refine ⟨e3, ?_, ?_, rfl, rfl⟩ <;> rw [e3] <;> rfl

/-- C5: a response with status neither 200 nor 429 fails the run on that
same attempt: the loop raises a 502 whose detail embeds the backend status
and decoded body, with no further attempt and nothing relayed. -/
theorem stream_openai_other_status_fails_fast (backend : Nat → Resp) (i r : Nat)
    (h₁ : (backend i).status ≠ 429) (h₂ : (backend i).status ≠ 200) :
    runEvents backend i (r + 1) =
      [Ev.attempt i, Ev.httpError 502
        ("OpenAI error " ++ toString (backend i).status ++ ": " ++ (backend i).body)] ∧
    ((backend 0).status ≠ 429 → (backend 0).status ≠ 200 →
      yieldedChunks (stream_openai backend) = [] ∧
      attemptsMade (stream_openai backend) = 1) := by
  have he : ∀ j s, (backend j).status ≠ 429 → (backend j).status ≠ 200 →
      runEvents backend j (s + 1) =
        [Ev.attempt j, Ev.httpError 502
          ("OpenAI error " ++ toString (backend j).status ++ ": " ++ (backend j).body)] := by
    intro j s hj₁ hj₂
    simp [runEvents, hj₁, hj₂]
  refine ⟨he i r h₁ h₂, fun h₃ h₄ => ?_⟩
  have h0 : stream_openai backend =
      [Ev.attempt 0, Ev.httpError 502
        ("OpenAI error " ++ toString (backend 0).status ++ ": " ++ (backend 0).body)] :=
    he 0 2 h₃ h₄
  rw [h0]
  exact ⟨rfl, rfl⟩

/-- C5 witness: a 403 with body `forbidden` surfaces as a 502 embedding both
on the first attempt, with no retry. -/
theorem stream_openai_other_status_fails_fast_witness :
    stream_openai forbiddenBackend =
      [Ev.attempt 0, Ev.httpError 502 "OpenAI error 403: forbidden"] ∧
    attemptsMade (stream_openai forbiddenBackend) = 1 := by
  have h := stream_openai_other_status_fails_fast forbiddenBackend 0 2
    (by decide) (by decide)
  refine ⟨?_, (h.2 (by decide) (by decide)).2⟩
  have h1 : stream_openai forbiddenBackend = _ := h.1
  rw [h1]
  rfl

/-- C4 (amended): the backoff wait is derived from the leftmost regex match
of `try again in ([0-9.]+)s`: when there is no match the wait is
min(2.5 + 0.3, 6.0) = 2.8; when the leftmost captured group parses as the
number q the wait is min(q + 0.3, 6.0); and every computed wait is at most
6.0. -/
theorem computeWait_formula (text : String) :
    (reSearch text.toList = none → computeWait text = Except.ok ((14 : ℚ)/5)) ∧
    (∀ g q, reSearch text.toList = some g → pyFloat g = some q →
      computeWait text = Except.ok (min (q + 3/10) 6)) ∧
    (∀ q, computeWait text = Except.ok q → q ≤ 6) := by
  refine ⟨?_, ?_, ?_⟩
  · intro h
    simp only [computeWait, h]
    congr 1
    rw [min_eq_left (by norm_num)]
    norm_num
  · intro g q h₁ h₂
    simp only [computeWait, h₁, h₂]
  · intro q h
    rw [computeWait] at h
    split at h
    · simp only [Except.ok.injEq] at h
      rw [← h]
      exact min_le_right _ _
    · split at h
      · simp only [Except.ok.injEq] at h
        rw [← h]
        exact min_le_right _ _
      · simp at h

/-- C4 witness: a body carrying `try again in 1.5s` gives wait
min(1.5 + 0.3, 6.0), and a body with no hint gives 2.8. -/
theorem computeWait_formula_witness :
    computeWait "Please try again in 1.5s." = Except.ok (min ((3 : ℚ)/2 + 3/10) 6) ∧
    computeWait "status 500" = Except.ok ((14 : ℚ)/5) :=
  ⟨(computeWait_formula "Please try again in 1.5s.").2.1 ['1', '.', '5'] ((3 : ℚ)/2)
      rfl (by
        rw [show pyFloat ['1', '.', '5'] = some (mkRat (Int.ofNat 15) 10) from rfl,
          Rat.mkRat_eq_div]
        norm_num [Int.ofNat_eq_natCast]),
   (computeWait_formula "status 500").1 rfl⟩

/-- C4 counterexample: this body contains the phrase `try again in 2s`,
whose number is 2, yet the computed wait is 5.3 -- taken from the leftmost
match, the one with number 5 -- and not min(2 + 0.3, 6.0) = 2.3. -/
theorem computeWait_not_from_every_phrase :
    containsSub ("try again in 2s".toList)
      ("try again in 5s or try again in 2s".toList) = true ∧
    computeWait "try again in 5s or try again in 2s" = Except.ok ((53 : ℚ)/10) ∧
    (53 : ℚ)/10 ≠ min ((2 : ℚ) + 3/10) 6 := by
  have hs : reSearch ("try again in 5s or try again in 2s".toList) = some ['5'] := rfl
  have hf : pyFloat ['5'] = some 5 := by
    rw [show pyFloat ['5'] = some (mkRat (Int.ofNat 5) 1) from rfl, Rat.mkRat_eq_div]
    norm_num [Int.ofNat_eq_natCast]
  refine ⟨by decide, ?_, ?_⟩
  · simp only [computeWait, hs, hf]
    congr 1
    rw [min_eq_left (by norm_num)]
    norm_num
  · rw [min_eq_left (by norm_num)]
    norm_num

/-- C6: the wait extraction is not total on 429 bodies: on this body the
regex matches with captured group `.`, and `float(".")` raises ValueError --
which propagates out of the generator -- instead of falling back to the 2.5
default. -/
theorem computeWait_valueerror_reachable :
    reSearch ("try again in .s".toList) = some ['.'] ∧
    pyFloat ['.'] = none ∧
    computeWait "try again in .s" = Except.error () := ⟨rfl, rfl, rfl⟩

end Proxy
